import Mathlib

/-!
Verification of the estatemate-tools Linear CLI client
(`src/linear/linear_client.py`, `src/linear/linear_operations.py`).

The Python code is shallowly embedded: pure string manipulation becomes
functions on `String` / `List Char`; the network is modelled by passing the
server's responses as explicit arguments and recording the requests an
operation issues as an explicit trace; `sys.exit(1)` with a printed
diagnostic becomes an `Except` error value carrying the exit code and the
message.
-/

namespace EstateMate

/-! ## Python string primitives

Python `str.lower`, `str.strip`, the substring operator `in`, and
`", ".join` are modelled character-wise.  (Python's versions also handle
non-ASCII case folding / whitespace; all inputs relevant to the claims are
ASCII, where the semantics agree.) -/

/-- Model of Python `needle in hay` restricted to a prefix test:
`isPre n h` is true iff `n` is a prefix of `h`. -/
def isPre {α : Type} [DecidableEq α] : List α → List α → Bool
  | [], _ => true
  | _ :: _, [] => false
  | a :: as, b :: bs => decide (a = b) && isPre as bs

/-- Model of Python's substring operator `needle in hay` on character lists:
true iff `n` occurs contiguously inside `h`. -/
def isSub {α : Type} [DecidableEq α] (n : List α) : List α → Bool
  | [] => isPre n []
  | b :: bs => isPre n (b :: bs) || isSub n bs

/-- Predicate that `n` occurs contiguously inside `h`. -/
def SubstrOf {α : Type} (n h : List α) : Prop :=
  ∃ pre post, h = pre ++ n ++ post

theorem isPre_iff {α : Type} [DecidableEq α] (n h : List α) :
    isPre n h = true ↔ ∃ post, h = n ++ post := by
  induction n generalizing h with
  | nil => simp [isPre]
  | cons a as ih =>
    cases h with
    | nil => simp [isPre]
    | cons b bs =>
      simp only [isPre, Bool.and_eq_true, decide_eq_true_eq, ih]
      constructor
      · rintro ⟨rfl, post, rfl⟩
        exact ⟨post, rfl⟩
      · rintro ⟨post, hpost⟩
        rw [List.cons_append] at hpost
        obtain ⟨h1, h2⟩ := List.cons.inj hpost
        exact ⟨h1.symm, post, h2⟩

theorem isSub_iff {α : Type} [DecidableEq α] (n h : List α) :
    isSub n h = true ↔ SubstrOf n h := by
  induction h with
  | nil =>
    simp only [isSub, isPre_iff, SubstrOf]
    constructor
    · rintro ⟨post, hpost⟩
      exact ⟨[], post, by simpa using hpost⟩
    · rintro ⟨pre, post, hh⟩
      exact ⟨post, by rw [hh]; cases pre <;> simp_all⟩
  | cons b bs ih =>
    simp only [isSub, Bool.or_eq_true, isPre_iff, ih, SubstrOf]
    constructor
    · rintro (⟨post, hpost⟩ | ⟨pre, post, hh⟩)
      · exact ⟨[], post, by simpa using hpost⟩
      · exact ⟨b :: pre, post, by simp [hh]⟩
    · rintro ⟨pre, post, hh⟩
      cases pre with
      | nil => exact Or.inl ⟨post, by simpa using hh⟩
      | cons p ps =>
        obtain ⟨-, h2⟩ := List.cons.inj hh
        exact Or.inr ⟨ps, post, by simpa using h2⟩

/-- A substring of `h` is a substring of `g ++ h`. -/
theorem SubstrOf.append_left {α : Type} {n h : List α} (g : List α)
    (hs : SubstrOf n h) : SubstrOf n (g ++ h) := by
  obtain ⟨pre, post, rfl⟩ := hs
  exact ⟨g ++ pre, post, by simp⟩

/-- Model of Python `str.lower` (character-wise ASCII lowering). -/
def pyLower (s : String) : String := ⟨s.data.map Char.toLower⟩

/-- Model of Python `str.strip` (drop leading and trailing whitespace). -/
def pyStrip (s : String) : String :=
  ⟨((s.data.dropWhile Char.isWhitespace).reverse.dropWhile Char.isWhitespace).reverse⟩

/-- Model of Python `needle in hay` on strings. -/
def pyIn (needle hay : String) : Bool := isSub needle.data hay.data

/-- Model of Python `", ".join(xs)`. -/
def joinComma : List String → String
  | [] => ""
  | [s] => s
  | s :: rest => s ++ ", " ++ joinComma rest

theorem joinComma_substr (x : String) (xs : List String) (hx : x ∈ xs) :
    SubstrOf x.data (joinComma xs).data := by
  induction xs with
  | nil => cases hx
  | cons s rest ih =>
    cases rest with
    | nil =>
      obtain rfl : x = s := by simpa using hx
      exact ⟨[], [], by simp [joinComma]⟩
    | cons r rs =>
      rcases List.mem_cons.mp hx with rfl | h
      · refine ⟨[], (", " ++ joinComma (r :: rs)).data, ?_⟩
        simp [joinComma, String.data_append]
      · have h1 := ih h
        have h2 : SubstrOf x.data ((", ").data ++ (joinComma (r :: rs)).data) :=
          h1.append_left _
        have h3 := h2.append_left s.data
        simpa [joinComma, String.data_append, List.append_assoc] using h3

/-! ## Generic first-match scan

Each Python resolver is a loop `for x in xs: if p(x): return g(x)`;
`scanFirst p g` is that loop. -/

def scanFirst {α β : Type} (p : α → Bool) (g : α → β) : List α → Option β
  | [] => none
  | x :: xs => if p x then some (g x) else scanFirst p g xs

/-- Predicate that `b` is the image of the first element of `l` satisfying `p`. -/
def FirstMatch {α β : Type} (p : α → Bool) (g : α → β) (l : List α) (b : β) : Prop :=
  ∃ pre x post, l = pre ++ x :: post ∧ p x = true ∧
    (∀ y ∈ pre, p y = false) ∧ b = g x

theorem scanFirst_eq_some {α β : Type} (p : α → Bool) (g : α → β)
    (l : List α) (b : β) :
    scanFirst p g l = some b ↔ FirstMatch p g l b := by
  induction l with
  | nil =>
    constructor
    · intro h; exact absurd h (by simp [scanFirst])
    · rintro ⟨pre, x, post, hl, -⟩
      exact absurd hl (by simp)
  | cons a t ih =>
    by_cases hpa : p a = true
    · rw [show scanFirst p g (a :: t) = some (g a) from by
        simp [scanFirst, hpa]]
      constructor
      · intro h
        obtain rfl : b = g a := (Option.some.inj h).symm
        exact ⟨[], a, t, rfl, hpa, by simp, rfl⟩
      · rintro ⟨pre, x, post, hl, hpx, hpre, rfl⟩
        cases pre with
        | nil =>
          obtain ⟨rfl, -⟩ := List.cons.inj hl
          rfl
        | cons q qs =>
          have ha : a = q := (List.cons.inj (by simpa using hl)).1
          have hq : p q = false := hpre q (by simp)
          rw [ha, hq] at hpa
          cases hpa
    · have hpa' : p a = false := by simpa using hpa
      rw [show scanFirst p g (a :: t) = scanFirst p g t from by
        simp [scanFirst, hpa']]
      rw [ih]
      constructor
      · rintro ⟨pre, x, post, hl, hpx, hpre, rfl⟩
        refine ⟨a :: pre, x, post, by simp [hl], hpx, ?_, rfl⟩
        intro y hy
        rcases List.mem_cons.mp hy with rfl | hy
        · exact hpa'
        · exact hpre y hy
      · rintro ⟨pre, x, post, hl, hpx, hpre, rfl⟩
        cases pre with
        | nil =>
          have ha : a = x := (List.cons.inj (by simpa using hl)).1
          rw [ha, hpx] at hpa'
          cases hpa'
        | cons q qs =>
          obtain ⟨rfl, ht⟩ := List.cons.inj (by simpa using hl)
          exact ⟨qs, x, post, ht, hpx, fun y hy => hpre y (by simp [hy]), rfl⟩

theorem scanFirst_eq_none {α β : Type} (p : α → Bool) (g : α → β) (l : List α) :
    (∀ x ∈ l, p x = false) → scanFirst p g l = none := by
  induction l with
  | nil => intro; rfl
  | cons a t ih =>
    intro h
    simp only [scanFirst, h a (by simp), if_false]
    exact ih fun x hx => h x (by simp [hx])

/-! ## Data model

The remote entities, as the nodes the lookup queries return. -/

/-- A workflow state node (`{ id name type }`); `type` is spelled `wtype`. -/
structure WState where
  id : String
  name : String
  wtype : String
deriving Repr, DecidableEq

/-- A project node (`{ id name state }`). -/
structure Project where
  id : String
  name : String
  state : String
deriving Repr, DecidableEq

/-- A team label node (`{ id name color }`). -/
structure TeamLabel where
  id : String
  name : String
  color : String
deriving Repr, DecidableEq

/-- A user node (`{ id name email active }`). -/
structure User where
  id : String
  name : String
  email : String
  active : Bool
deriving Repr, DecidableEq

/-- A label as attached to an issue (`{ id name }`). -/
structure LabelRef where
  id : String
  name : String
deriving Repr, DecidableEq

/-- The issue node returned by `get_issue_with_labels`
(`{ id identifier labels { nodes { id name } } }`). -/
structure IssueWithLabels where
  id : String
  identifier : String
  labels : List LabelRef
deriving Repr, DecidableEq

/-- An operation failure: the printed `ERROR: ...` diagnostic together with
the `sys.exit` code. -/
structure OpErr where
  exitCode : Nat
  message : String
deriving Repr, DecidableEq

/-! ## Priority maps (`linear_operations.py` lines 33-42) -/

/-- Source `PRIORITY_MAP = {"urgent": 1, "high": 2, "medium": 3, "low": 4, "none": 0}`.
Keys are unique, so an association list with first-key lookup models the dict. -/
def PRIORITY_MAP : List (String × Int) :=
  [("urgent", 1), ("high", 2), ("medium", 3), ("low", 4), ("none", 0)]

/-- Source `PRIORITY_DISPLAY = {v: k for k, v in PRIORITY_MAP.items()}`. -/
def PRIORITY_DISPLAY : List (Int × String) :=
  PRIORITY_MAP.map (fun kv => (kv.2, kv.1))

/-- Python `PRIORITY_MAP.get(key, dflt)`. -/
def priorityMapGet (key : String) (dflt : Int) : Int :=
  (PRIORITY_MAP.lookup key).getD dflt

/-- Python `PRIORITY_DISPLAY.get(key, "none")`, where `key` is the issue's
priority field (`none` when the field is absent/null). -/
def priorityDisplayGet (key : Option Int) : String :=
  match key with
  | none => "none"
  | some n => (PRIORITY_DISPLAY.lookup n).getD "none"

/-! ## Name resolvers (`linear_operations.py` lines 65-227)

Each resolver takes the candidate list its lookup query fetched from the
service and runs the source's `for`-loop over it. -/

/-- The loop condition of `get_state_id`:
`status_name.lower() in state["name"].lower()`. -/
def statusMatches (status_name : String) (s : WState) : Bool :=
  pyIn (pyLower status_name) (pyLower s.name)

/-- Source `get_state_id` (lines 65-76): first case-insensitive substring match
wins; a miss prints the available state names and exits 1. -/
def get_state_id (status_name : String) (states : List WState) :
    Except OpErr String :=
  match scanFirst (statusMatches status_name) WState.id states with
  | some sid => .ok sid
  | none => .error ⟨1, "ERROR: Status \x27" ++ status_name ++
      "\x27 not found. Available: " ++ joinComma (states.map WState.name)⟩

/-- The loop condition of `get_project_id`. -/
def projectMatches (project_name : String) (p : Project) : Bool :=
  pyIn (pyLower project_name) (pyLower p.name)

/-- Source `get_project_id` (lines 99-110). -/
def get_project_id (project_name : String) (projects : List Project) :
    Except OpErr String :=
  match scanFirst (projectMatches project_name) Project.id projects with
  | some pid => .ok pid
  | none => .error ⟨1, "ERROR: Project \x27" ++ project_name ++
      "\x27 not found. Available: " ++ joinComma (projects.map Project.name)⟩

/-- The loop condition of `get_label_ids`:
`name.strip().lower() in label["name"].lower()`. -/
def labelMatches (name : String) (lb : TeamLabel) : Bool :=
  pyIn (pyLower (pyStrip name)) (pyLower lb.name)

/-- Source `get_label_ids` (lines 133-151): resolves each requested name in order
to the first matching team label; the first unmatched name prints the
available label names and exits 1. -/
def get_label_ids (label_names : List String) (labels : List TeamLabel) :
    Except OpErr (List String) :=
  match label_names with
  | [] => .ok []
  | name :: rest =>
    match scanFirst (labelMatches name) TeamLabel.id labels with
    | some lid =>
      match get_label_ids rest labels with
      | .ok ids => .ok (lid :: ids)
      | .error e => .error e
    | none => .error ⟨1, "ERROR: Label \x27" ++ name ++
        "\x27 not found. Available: " ++ joinComma (labels.map TeamLabel.name)⟩

/-- The loop condition of `get_user_id`:
`user.get("active") and (needle in name.lower() or needle in email.lower())`. -/
def userMatches (user_name : String) (u : User) : Bool :=
  u.active && (pyIn (pyLower user_name) (pyLower u.name) ||
    pyIn (pyLower user_name) (pyLower u.email))

/-- Source `get_user_id` (lines 172-186): candidates are the active users; a miss
prints the active users' names and exits 1. -/
def get_user_id (user_name : String) (users : List User) :
    Except OpErr String :=
  match scanFirst (userMatches user_name) User.id users with
  | some uid => .ok uid
  | none => .error ⟨1, "ERROR: User \x27" ++ user_name ++
      "\x27 not found. Available: " ++
      joinComma ((users.filter User.active).map User.name)⟩

/-- Source `get_issue_id` (lines 189-204): sends `issue(id: "<identifier>")` to the
server and returns the server's answer; `issueResp` is the `issue` field of
the response (`none` when the server found no such issue).  No candidate
set is fetched and no client-side matching happens. -/
def get_issue_id (identifier : String) (issueResp : Option String) :
    Except OpErr String :=
  match issueResp with
  | some uuid => .ok uuid
  | none => .error ⟨1, "ERROR: Issue \x27" ++ identifier ++ "\x27 not found"⟩

/-- Source `get_issue_with_labels` (lines 206-227): same server-side lookup,
returning the issue with its current labels. -/
def get_issue_with_labels (identifier : String)
    (issueResp : Option IssueWithLabels) : Except OpErr IssueWithLabels :=
  match issueResp with
  | some issue => .ok issue
  | none => .error ⟨1, "ERROR: Issue \x27" ++ identifier ++ "\x27 not found"⟩

/-! ## `escape_graphql` (lines 230-232) -/

/-- Python `s.replace(old, new)` for a single-character `old`. -/
def pyReplaceChar (s : List Char) (old : Char) (new : List Char) : List Char :=
  s.flatMap (fun c => if c = old then new else [c])

/-- Source `escape_graphql`: `text.replace('\\', '\\\\').replace('"', '\\"')
.replace('\n', '\\n')` (backslashes first, then quotes, then newlines). -/
def escape_graphql (text : String) : String :=
  ⟨pyReplaceChar (pyReplaceChar (pyReplaceChar text.data
      '\\' ['\\', '\\']) '"' ['\\', '"']) '\n' ['\\', 'n']⟩

/-- The escaped form of one character: backslash, double quote and newline
get a backslash prefix; every other character is kept as is. -/
def escChar (c : Char) : List Char :=
  if c = '\\' then ['\\', '\\']
  else if c = '"' then ['\\', '"']
  else if c = '\n' then ['\\', 'n']
  else [c]

/-! ## `validate_date` (lines 235-238) -/

/-- Python's `$` regex anchor: matches at the end of the string, or just
before a newline at the end of the string. -/
def dollarAnchor (rest : List Char) : Bool :=
  decide (rest = []) || decide (rest = ['\n'])

/-- Source `validate_date`: `bool(re.match(r'^\d{4}-\d{2}-\d{2}$', date_str))`.
`\d` is modelled as `Char.isDigit`; Python's `\d` additionally accepts
non-ASCII Unicode digits, which no claim exercises. -/
def validate_date (s : String) : Bool :=
  match s.data with
  | c1 :: c2 :: c3 :: c4 :: d1 :: c5 :: c6 :: d2 :: c7 :: c8 :: rest =>
    c1.isDigit && c2.isDigit && c3.isDigit && c4.isDigit && decide (d1 = '-') &&
    c5.isDigit && c6.isDigit && decide (d2 = '-') && c7.isDigit && c8.isDigit &&
    dollarAnchor rest
  | _ => false

/-- The shape the spec describes: exactly four digits, a dash, two digits,
a dash, and two digits.  (Stated from the spec's words, for comparison
with `validate_date`.) -/
def claimedDateShape (s : String) : Bool :=
  match s.data with
  | [c1, c2, c3, c4, d1, c5, c6, d2, c7, c8] =>
    c1.isDigit && c2.isDigit && c3.isDigit && c4.isDigit && decide (d1 = '-') &&
    c5.isDigit && c6.isDigit && decide (d2 = '-') && c7.isDigit && c8.isDigit
  | _ => false

/-- The spec's shape followed by a single trailing newline. -/
def claimedDateShapeNl (s : String) : Bool :=
  match s.data with
  | [c1, c2, c3, c4, d1, c5, c6, d2, c7, c8, nl] =>
    c1.isDigit && c2.isDigit && c3.isDigit && c4.isDigit && decide (d1 = '-') &&
    c5.isDigit && c6.isDigit && decide (d2 = '-') && c7.isDigit && c8.isDigit &&
    decide (nl = '\n')
  | _ => false

/-! ## Transport layer (`linear_client.py`) -/

/-- The credentials file contents. -/
structure Credentials where
  api_key : String
  team_id : String
  team_key : String
deriving Repr, DecidableEq

/-- The failure taxonomy of the transport layer. -/
inductive FailureKind where
  | CREDENTIALS_MISSING
  | AUTH_ERROR
  | RATE_LIMITED
  | HTTP_ERROR
  | NETWORK_ERROR
  | GRAPHQL_ERROR
deriving Repr, DecidableEq

/-- A terminal transport failure: exit code, classification, and the lines
printed to standard error. -/
structure ProcExit where
  exitCode : Nat
  kind : FailureKind
  stderr : List String
deriving Repr, DecidableEq

/-- Source `CREDENTIALS_FILE = Path.home() / ".linear_api/estatemate-product-credentials.json"`. -/
def CREDENTIALS_FILE (home : String) : String :=
  home ++ "/.linear_api/estatemate-product-credentials.json"

/-- The setup/remediation lines `load_credentials` prints to stderr when the
credentials file is absent (lines 25-36 of `linear_client.py`). -/
def credMissingLines (home : String) : List String :=
  [ "CREDENTIALS_MISSING",
    "Create file at " ++ CREDENTIALS_FILE home ++ " with:",
    "\x7b\"api_key\": \"lin_api_...\", \"team_id\": \"...\", \"team_key\": \"EST2\"\x7d",
    "",
    "To get your API key:",
    "  1. Go to Linear > Settings > API > Personal API keys",
    "  2. Create a new key with a label like \x27CLI scripts\x27",
    "  3. Copy the key (starts with lin_api_)",
    "",
    "To get your team_id:",
    "  Run: python3 linear_client.py --teams",
    "  (requires api_key to be set, team_id can be placeholder)" ]

/-- Source `load_credentials` (lines 22-40): `credFile` is the parsed contents of
the credentials file, `none` when the file does not exist. -/
def load_credentials (home : String) (credFile : Option Credentials) :
    Except ProcExit Credentials :=
  match credFile with
  | none => .error ⟨1, .CREDENTIALS_MISSING, credMissingLines home⟩
  | some creds => .ok creds

/-- The outcome of the single `urlopen` POST: a parsed JSON body (with the
optional `errors` and `data` fields), an `HTTPError`, or a `URLError`. -/
inductive HttpOutcome (δ : Type) where
  | ok (errors : Option (List String)) (dat : Option δ)
  | httpError (code : Nat) (reason : String)
  | urlError (msg : String)
deriving Repr, DecidableEq

/-- Model of Python `"; ".join(xs)`. -/
def joinSemi : List String → String
  | [] => ""
  | [s] => s
  | s :: rest => s ++ "; " ++ joinSemi rest

/-- The two stderr lines of the 401 branch. -/
def authLines : List String :=
  [ "AUTH_ERROR: Invalid or expired API key",
    "Check your API key at: Linear > Settings > API > Personal API keys" ]

/-- Source `execute_query` (lines 52-86).  `outcome` is what the single `urlopen`
POST produced.  The second component of the result is the trace of network
requests actually attempted: empty when credentials are missing (the
request is never sent), and exactly `[query]` otherwise — the function
consumes one outcome, so no retry is possible. -/
def execute_query {δ : Type} (home : String) (credFile : Option Credentials)
    (query : String) (outcome : HttpOutcome δ) :
    Except ProcExit (Option δ) × List String :=
  match load_credentials home credFile with
  | .error e => (.error e, [])
  | .ok _ =>
    match outcome with
    | .httpError code reason =>
      if code = 401 then
        (.error ⟨1, .AUTH_ERROR, authLines⟩, [query])
      else if code = 429 then
        (.error ⟨1, .RATE_LIMITED,
          ["RATE_LIMITED: Too many requests - wait a moment and try again"]⟩,
         [query])
      else
        (.error ⟨1, .HTTP_ERROR,
          ["HTTP_ERROR: " ++ toString code ++ " " ++ reason]⟩, [query])
    | .urlError msg =>
      (.error ⟨1, .NETWORK_ERROR, ["NETWORK_ERROR: " ++ msg]⟩, [query])
    | .ok errors dat =>
      match errors with
      | some msgs =>
        (.error ⟨1, .GRAPHQL_ERROR, ["GRAPHQL_ERROR: " ++ joinSemi msgs]⟩,
         [query])
      | none => (.ok dat, [query])

/-! ## Operations (`linear_operations.py`)

Each operation is modelled together with the trace of network requests it
issues, in order.  Server responses are passed as arguments. -/

/-- One network request of an operation. -/
inductive NetEvent where
  | fetchIssue (identifier : String)
  | fetchIssueWithLabels (identifier : String)
  | fetchStates
  | fetchProjects
  | fetchLabels
  | fetchUsers
  | submitIssueUpdate (issueId : String) (inputFields : List String)
  | submitLabelUpdate (issueId : String) (labelIds : List String)
deriving Repr, DecidableEq

/-- Python `f'"{s}"'`. -/
def quoteStr (s : String) : String := "\"" ++ s ++ "\""

/-- Whether a network event is an `issueUpdate` mutation submission. -/
def isSubmitUpdate : NetEvent → Bool
  | .submitIssueUpdate _ _ => true
  | _ => false

/-- Python `list(set(l))`: the distinct elements of `l`.  The iteration
order of a Python `set` is unspecified, so one representative order
(`List.dedup`) is fixed; the claims depend only on the element set. -/
def pySetList (l : List String) : List String := l.dedup

/-- Source `add_labels_to_issue` (lines 541-578): fetch the issue's current
labels, resolve the requested names, then submit the deduplicated union of
current and new label IDs as the full new label list.  `submitOk` is the
`success` flag of the mutation response. -/
def add_labels_to_issue (identifier : String) (label_names : List String)
    (issueResp : Option IssueWithLabels) (teamLabels : List TeamLabel)
    (submitOk : Bool) : List NetEvent × Except OpErr Unit :=
  match get_issue_with_labels identifier issueResp with
  | .error e => ([.fetchIssueWithLabels identifier], .error e)
  | .ok issue =>
    match get_label_ids label_names teamLabels with
    | .error e => ([.fetchIssueWithLabels identifier, .fetchLabels], .error e)
    | .ok new_label_ids =>
      let current_label_ids := issue.labels.map LabelRef.id
      let all_label_ids := pySetList (current_label_ids ++ new_label_ids)
      ([.fetchIssueWithLabels identifier, .fetchLabels,
        .submitLabelUpdate issue.id all_label_ids],
       if submitOk then .ok () else .error ⟨1, "Failed to add labels"⟩)

/-- Source `remove_labels_from_issue` (lines 581-619): fetch the issue's current
labels, resolve the requested names, then submit the current list with the
resolved IDs filtered out. -/
def remove_labels_from_issue (identifier : String) (label_names : List String)
    (issueResp : Option IssueWithLabels) (teamLabels : List TeamLabel)
    (submitOk : Bool) : List NetEvent × Except OpErr Unit :=
  match get_issue_with_labels identifier issueResp with
  | .error e => ([.fetchIssueWithLabels identifier], .error e)
  | .ok issue =>
    match get_label_ids label_names teamLabels with
    | .error e => ([.fetchIssueWithLabels identifier, .fetchLabels], .error e)
    | .ok remove_ids =>
      let current_label_ids := issue.labels.map LabelRef.id
      let remaining_ids :=
        current_label_ids.filter (fun lid => !(remove_ids.contains lid))
      ([.fetchIssueWithLabels identifier, .fetchLabels,
        .submitLabelUpdate issue.id remaining_ids],
       if submitOk then .ok () else .error ⟨1, "Failed to remove labels"⟩)

/-! ### `update_issue` (lines 337-449)

Each optional flag contributes its network requests and its entry of
`input_fields`; the nine flags are processed in source order. -/

/-- One flag's contribution: the requests it issues and either its
`input_fields` entries or the terminal error. -/
def updStep (acc : List NetEvent × List String)
    (part : List NetEvent × Except OpErr (List String)) :
    Except (List NetEvent × OpErr) (List NetEvent × List String) :=
  match part.2 with
  | .ok fs => .ok (acc.1 ++ part.1, acc.2 ++ fs)
  | .error e => .error (acc.1 ++ part.1, e)

/-- Source `if status: stateId` (lines 345-347). -/
def upd_status_part (status : Option String) (states : List WState) :
    List NetEvent × Except OpErr (List String) :=
  match status with
  | none => ([], .ok [])
  | some s =>
    ([.fetchStates],
     match get_state_id s states with
     | .ok sid => .ok ["stateId: " ++ quoteStr sid]
     | .error e => .error e)

/-- Source `if priority: priority` (lines 349-351):
`PRIORITY_MAP.get(priority.lower(), 0)`. -/
def upd_priority_part (priority : Option String) :
    List NetEvent × Except OpErr (List String) :=
  match priority with
  | none => ([], .ok [])
  | some p => ([], .ok ["priority: " ++ toString (priorityMapGet (pyLower p) 0)])

/-- Source `if title: title` (lines 353-355). -/
def upd_title_part (title : Option String) :
    List NetEvent × Except OpErr (List String) :=
  match title with
  | none => ([], .ok [])
  | some t => ([], .ok ["title: " ++ quoteStr (escape_graphql t)])

/-- Source `if description: description` (lines 357-359). -/
def upd_description_part (description : Option String) :
    List NetEvent × Except OpErr (List String) :=
  match description with
  | none => ([], .ok [])
  | some d => ([], .ok ["description: " ++ quoteStr (escape_graphql d)])

/-- Source `if project: projectId` (lines 361-363). -/
def upd_project_part (project : Option String) (projects : List Project) :
    List NetEvent × Except OpErr (List String) :=
  match project with
  | none => ([], .ok [])
  | some p =>
    ([.fetchProjects],
     match get_project_id p projects with
     | .ok pid => .ok ["projectId: " ++ quoteStr pid]
     | .error e => .error e)

/-- Source `if parent: parentId` (lines 365-367). -/
def upd_parent_part (parent : Option String) (parentResp : Option String) :
    List NetEvent × Except OpErr (List String) :=
  match parent with
  | none => ([], .ok [])
  | some p =>
    ([.fetchIssue p],
     match get_issue_id p parentResp with
     | .ok pid => .ok ["parentId: " ++ quoteStr pid]
     | .error e => .error e)

/-- Source `if labels: labelIds` (lines 369-372). -/
def upd_labels_part (labels : Option (List String))
    (teamLabels : List TeamLabel) :
    List NetEvent × Except OpErr (List String) :=
  match labels with
  | none => ([], .ok [])
  | some ls =>
    ([.fetchLabels],
     match get_label_ids ls teamLabels with
     | .ok ids => .ok ["labelIds: [" ++ joinComma (ids.map quoteStr) ++ "]"]
     | .error e => .error e)

/-- Source `if due_date: dueDate` with validation (lines 374-378). -/
def upd_due_date_part (due_date : Option String) :
    List NetEvent × Except OpErr (List String) :=
  match due_date with
  | none => ([], .ok [])
  | some d =>
    ([],
     if validate_date d then .ok ["dueDate: " ++ quoteStr d]
     else .error ⟨1, "ERROR: Invalid date format \x27" ++ d ++
       "\x27. Use YYYY-MM-DD"⟩)

/-- Source `if assignee: assigneeId` (lines 380-382). -/
def upd_assignee_part (assignee : Option String) (users : List User) :
    List NetEvent × Except OpErr (List String) :=
  match assignee with
  | none => ([], .ok [])
  | some a =>
    ([.fetchUsers],
     match get_user_id a users with
     | .ok uid => .ok ["assigneeId: " ++ quoteStr uid]
     | .error e => .error e)

/-- Source `update_issue`: resolve the identifier, collect `input_fields` from the
nine optional flags in source order, refuse an empty update (lines
384-386), otherwise submit the `issueUpdate` mutation. -/
def update_issue (identifier : String)
    (status priority title description project parent : Option String)
    (labels : Option (List String)) (due_date assignee : Option String)
    (issueIdResp parentResp : Option String)
    (states : List WState) (projects : List Project)
    (teamLabels : List TeamLabel) (users : List User) (submitOk : Bool) :
    List NetEvent × Except OpErr Unit :=
  match get_issue_id identifier issueIdResp with
  | .error e => ([.fetchIssue identifier], .error e)
  | .ok issue_id =>
    let acc0 : Except (List NetEvent × OpErr) (List NetEvent × List String) :=
      .ok ([.fetchIssue identifier], [])
    let acc1 := acc0.bind (fun a => updStep a (upd_status_part status states))
    let acc2 := acc1.bind (fun a => updStep a (upd_priority_part priority))
    let acc3 := acc2.bind (fun a => updStep a (upd_title_part title))
    let acc4 := acc3.bind (fun a => updStep a (upd_description_part description))
    let acc5 := acc4.bind (fun a => updStep a (upd_project_part project projects))
    let acc6 := acc5.bind (fun a => updStep a (upd_parent_part parent parentResp))
    let acc7 := acc6.bind (fun a => updStep a (upd_labels_part labels teamLabels))
    let acc8 := acc7.bind (fun a => updStep a (upd_due_date_part due_date))
    let acc9 := acc8.bind (fun a => updStep a (upd_assignee_part assignee users))
    match acc9 with
    | .error (t, e) => (t, .error e)
    | .ok (t, input_fields) =>
      if input_fields.isEmpty then
        (t, .error ⟨1, "ERROR: No updates specified."⟩)
      else
        (t ++ [.submitIssueUpdate issue_id input_fields],
         if submitOk then .ok () else .error ⟨1, "Failed to update issue"⟩)

/-! ### `list_issues` query construction (lines 452-512) -/

/-- Filter clause appended when `--status` is given (lines 458-460). -/
def status_filter : Option String → List String
  | some s => ["state: \x7b name: \x7b containsIgnoreCase: " ++
      (quoteStr (escape_graphql s) ++ " \x7d \x7d")]
  | none => []

/-- Filter clause appended when `--project` is given (lines 462-464). -/
def project_filter : Option String → List String
  | some p => ["project: \x7b name: \x7b containsIgnoreCase: " ++
      (quoteStr (escape_graphql p) ++ " \x7d \x7d")]
  | none => []

/-- Filter clause appended when `--priority` is given (lines 466-468). -/
def priority_filter : Option String → List String
  | some pr => ["priority: \x7b eq: " ++
      (toString (priorityMapGet (pyLower pr) 0) ++ " \x7d")]
  | none => []

/-- Filter clause appended when `--label` is given (lines 470-472). -/
def label_filter : Option String → List String
  | some l => ["labels: \x7b name: \x7b containsIgnoreCase: " ++
      (quoteStr (escape_graphql l) ++ " \x7d \x7d")]
  | none => []

/-- Filter clause appended when `--assignee` is given (lines 474-476). -/
def assignee_filter : Option String → List String
  | some a => ["assignee: \x7b name: \x7b containsIgnoreCase: " ++
      (quoteStr (escape_graphql a) ++ " \x7d \x7d")]
  | none => []

/-- The `filters` list: one clause per provided option, in source order. -/
def list_filters (status project priority label assignee : Option String) :
    List String :=
  status_filter status ++ project_filter project ++
  priority_filter priority ++ label_filter label ++ assignee_filter assignee

/-- Source `filter_str` / `filter_clause` (lines 478-479): all clauses are joined
into one `filter` object, so the server combines them with logical AND; no
clause means no `filter` argument at all. -/
def filter_clause (filters : List String) : String :=
  if joinComma filters = "" then ""
  else ", filter: \x7b " ++ joinComma filters ++ " \x7d"

/-- The fixed field-selection tail of the list query (whitespace
condensed). -/
def list_query_tail : String :=
  ") \x7b nodes \x7b identifier title priority dueDate state \x7b name \x7d " ++
  "project \x7b name \x7d assignee \x7b name \x7d labels \x7b nodes \x7b name " ++
  "\x7d \x7d parent \x7b identifier \x7d url \x7d \x7d \x7d \x7d"

/-- The query `list_issues` sends (lines 481-512, whitespace condensed):
`limit` is interpolated as the `first:` page-size argument and the filter
clause is interpolated after `orderBy: updatedAt`. -/
def list_issues_query (team_id : String) (limit : Int)
    (status project priority label assignee : Option String) : String :=
  ("\x7b team(id: " ++ quoteStr team_id ++ ") \x7b ") ++
  ("issues(first: " ++ toString limit ++ ", orderBy: updatedAt") ++
  filter_clause (list_filters status project priority label assignee) ++
  list_query_tail

/-! ### `add_comment` mutation construction (lines 622-638) -/

/-- The `commentCreate` mutation body (whitespace condensed): built by
interpolating the issue ID and the already-escaped comment body. -/
def comment_mutation (issue_id body_escaped : String) : String :=
  "mutation \x7b commentCreate(input: \x7bissueId: " ++ quoteStr issue_id ++
  ", body: " ++ quoteStr body_escaped ++
  "\x7d) \x7b success comment \x7b id body createdAt \x7d \x7d \x7d"

/-- Function `add_comment` escapes the body with `escape_graphql` and interpolates
it into the mutation. -/
def add_comment_mutation (issue_id body : String) : String :=
  comment_mutation issue_id (escape_graphql body)

/-! ### Output reshaping (priority display; lines 428-435, 519-525, 745-756) -/

/-- An issue node as the list/get/update queries return it (the fields the
reshaping reads). -/
structure IssueNode where
  identifier : String
  title : String
  priority : Option Int
  stateName : Option String
  url : String
deriving Repr, DecidableEq

/-- The core of the reshaped JSON output common to `update_issue`,
`list_issues` and `get_issue`. -/
structure IssueItemOut where
  identifier : String
  title : String
  status : Option String
  priority : String
  url : String
deriving Repr, DecidableEq

/-- One entry of `list_issues`' output (lines 519-525). -/
def list_item (i : IssueNode) : IssueItemOut :=
  { identifier := i.identifier, title := i.title, status := i.stateName,
    priority := priorityDisplayGet i.priority, url := i.url }

/-- The core of `update_issue`'s success output (lines 428-435). -/
def update_issue_output (i : IssueNode) : IssueItemOut :=
  { identifier := i.identifier, title := i.title, status := i.stateName,
    priority := priorityDisplayGet i.priority, url := i.url }

/-- The core of `get_issue`'s output (lines 745-756). -/
def get_issue_output (i : IssueNode) : IssueItemOut :=
  { identifier := i.identifier, title := i.title, status := i.stateName,
    priority := priorityDisplayGet i.priority, url := i.url }

/-! ## Helper lemmas -/

/-- A substring of `h` is a substring of `h ++ g`. -/
theorem SubstrOf.append_right {α : Type} {n h : List α} (g : List α)
    (hs : SubstrOf n h) : SubstrOf n (h ++ g) := by
  obtain ⟨pre, post, rfl⟩ := hs
  exact ⟨pre, post ++ g, by simp⟩

/-- The three sequential `replace` calls of `escape_graphql` amount to
replacing every character by its escaped form, with no double escaping. -/
theorem escape_chars (l : List Char) :
    pyReplaceChar (pyReplaceChar (pyReplaceChar l '\\' ['\\', '\\'])
      '"' ['\\', '"']) '\n' ['\\', 'n'] = l.flatMap escChar := by
  induction l with
  | nil => rfl
  | cons c t ih =>
    simp only [pyReplaceChar] at ih ⊢
    simp only [List.flatMap_cons, List.flatMap_append, ih]
    have hhead :
        ((((if c = '\\' then ['\\', '\\'] else [c]).flatMap
            fun x => if x = '"' then ['\\', '"'] else [x]).flatMap
            fun x => if x = '\n' then ['\\', 'n'] else [x]) : List Char) =
          escChar c := by
      by_cases h1 : c = '\\'
      · subst h1; rfl
      · by_cases h2 : c = '"'
        · subst h2; rfl
        · by_cases h3 : c = '\n'
          · subst h3; rfl
          · simp [escChar, h1, h2, h3]
    rw [hhead]

/-! ## Claims -/

/-- Claim C5: For every priority label in `{urgent, high, medium, low, none}`,
mapping the label through `PRIORITY_MAP` and back through
`PRIORITY_DISPLAY` yields the original label; the forward map is injective
and its values all lie in `0`–`4`. -/
theorem C5_priority_round_trip :
    priorityDisplayGet (some (priorityMapGet "urgent" 0)) = "urgent"
    ∧ priorityDisplayGet (some (priorityMapGet "high" 0)) = "high"
    ∧ priorityDisplayGet (some (priorityMapGet "medium" 0)) = "medium"
    ∧ priorityDisplayGet (some (priorityMapGet "low" 0)) = "low"
    ∧ priorityDisplayGet (some (priorityMapGet "none" 0)) = "none"
    ∧ (PRIORITY_MAP.map Prod.snd).Nodup
    ∧ PRIORITY_MAP.all (fun kv => decide (0 ≤ kv.2) && decide (kv.2 ≤ 4)) = true := by
  decide

/-- Claim C7: `escape_graphql` rewrites each backslash, double quote and
newline of the input to its escaped form (character-wise, so nothing is
escaped twice), and `add_comment` builds its mutation body by interpolating
the escaped text between fixed literal pieces. -/
theorem C7_escape_graphql :
    (∀ s : String, (escape_graphql s).data = s.data.flatMap escChar)
    ∧ (∀ issue_id body : String,
        (add_comment_mutation issue_id body).data =
          ("mutation \x7b commentCreate(input: \x7bissueId: " ++
            quoteStr issue_id ++ ", body: \"").data ++
          (escape_graphql body).data ++
          ("\"\x7d) \x7b success comment \x7b id body createdAt \x7d \x7d \x7d").data) := by
  constructor
  · intro s
    exact escape_chars s.data
  · intro issue_id body
    simp [add_comment_mutation, comment_mutation, quoteStr, String.data_append]

/-- Claim C9: In the output reshaping of update, list and get, a priority
value outside the integers 0–4 — including an absent priority — is
rendered as the label `"none"`. -/
theorem C9_priority_display_default (i : IssueNode)
    (h : i.priority = none ∨ ∃ n, i.priority = some n ∧ (n < 0 ∨ 4 < n)) :
    priorityDisplayGet i.priority = "none"
    ∧ (list_item i).priority = "none"
    ∧ (update_issue_output i).priority = "none"
    ∧ (get_issue_output i).priority = "none" := by
  have hd : priorityDisplayGet i.priority = "none" := by
    rcases h with h | ⟨n, hn, hb⟩
    · rw [h]; rfl
    · rw [hn]
      have h1 : ¬(n = 1) := by rcases hb with hb | hb <;> omega
      have h2 : ¬(n = 2) := by rcases hb with hb | hb <;> omega
      have h3 : ¬(n = 3) := by rcases hb with hb | hb <;> omega
      have h4 : ¬(n = 4) := by rcases hb with hb | hb <;> omega
      have h0 : ¬(n = 0) := by rcases hb with hb | hb <;> omega
      have b1 : (n == (1 : Int)) = false := beq_eq_false_iff_ne.mpr h1
      have b2 : (n == (2 : Int)) = false := beq_eq_false_iff_ne.mpr h2
      have b3 : (n == (3 : Int)) = false := beq_eq_false_iff_ne.mpr h3
      have b4 : (n == (4 : Int)) = false := beq_eq_false_iff_ne.mpr h4
      have b0 : (n == (0 : Int)) = false := beq_eq_false_iff_ne.mpr h0
      simp [priorityDisplayGet, PRIORITY_DISPLAY, PRIORITY_MAP, List.lookup,
        b0, b1, b2, b3, b4]
  exact ⟨hd, by simp [list_item, hd], by simp [update_issue_output, hd],
    by simp [get_issue_output, hd]⟩

/-- Witness for C9 at the concrete priority 7 and at an absent priority. -/
theorem C9_witness :
    (priorityDisplayGet (some 7) = "none"
      ∧ (list_item ⟨"EST2-1", "T", some 7, none, "u"⟩).priority = "none"
      ∧ (update_issue_output ⟨"EST2-1", "T", some 7, none, "u"⟩).priority = "none"
      ∧ (get_issue_output ⟨"EST2-1", "T", some 7, none, "u"⟩).priority = "none")
    ∧ (priorityDisplayGet (none : Option Int) = "none"
      ∧ (list_item ⟨"EST2-2", "T", none, none, "u"⟩).priority = "none"
      ∧ (update_issue_output ⟨"EST2-2", "T", none, none, "u"⟩).priority = "none"
      ∧ (get_issue_output ⟨"EST2-2", "T", none, none, "u"⟩).priority = "none") :=
  ⟨C9_priority_display_default ⟨"EST2-1", "T", some 7, none, "u"⟩
      (Or.inr ⟨7, rfl, by decide⟩),
    C9_priority_display_default ⟨"EST2-2", "T", none, none, "u"⟩ (Or.inl rfl)⟩

/-- Claim C4: With the credentials file absent, any attempt to execute a
GraphQL request exits with code 1, prints the `CREDENTIALS_MISSING`
setup/remediation instructions to standard error, and attempts no network
call (the request trace is empty). -/
theorem C4_credentials_missing_before_network :
    ∀ (δ : Type) (home q : String) (outcome : HttpOutcome δ),
      execute_query (δ := δ) home none q outcome =
        (.error ⟨1, .CREDENTIALS_MISSING, credMissingLines home⟩, [])
      ∧ (execute_query (δ := δ) home none q outcome).2 = []
      ∧ "CREDENTIALS_MISSING" ∈ credMissingLines home
      ∧ "To get your API key:" ∈ credMissingLines home
      ∧ "  1. Go to Linear > Settings > API > Personal API keys" ∈
          credMissingLines home
      ∧ load_credentials home none =
          .error ⟨1, .CREDENTIALS_MISSING, credMissingLines home⟩ := by
  intro δ home q outcome
  refine ⟨rfl, rfl, ?_, ?_, ?_, rfl⟩ <;> simp [credMissingLines]

/-- Claim C3: `execute_query` classifies an HTTP 401 as `AUTH_ERROR`
(exit 1), an HTTP 429 as `RATE_LIMITED` (exit 1), any other HTTP error
status as `HTTP_ERROR`, a transport-level failure as `NETWORK_ERROR`, and a
response payload carrying a GraphQL `errors` field as `GRAPHQL_ERROR`; each
is terminal with exit code 1, and exactly one POST is ever attempted (no
retry). -/
theorem C3_error_classification :
    ∀ (δ : Type) (home : String) (creds : Credentials) (q : String),
      (∀ reason, execute_query (δ := δ) home (some creds) q
          (.httpError 401 reason) = (.error ⟨1, .AUTH_ERROR, authLines⟩, [q]))
      ∧ (∀ reason, execute_query (δ := δ) home (some creds) q
          (.httpError 429 reason) =
          (.error ⟨1, .RATE_LIMITED,
            ["RATE_LIMITED: Too many requests - wait a moment and try again"]⟩,
           [q]))
      ∧ (∀ code reason, code ≠ 401 → code ≠ 429 →
          execute_query (δ := δ) home (some creds) q (.httpError code reason) =
            (.error ⟨1, .HTTP_ERROR,
              ["HTTP_ERROR: " ++ toString code ++ " " ++ reason]⟩, [q]))
      ∧ (∀ msg, execute_query (δ := δ) home (some creds) q (.urlError msg) =
          (.error ⟨1, .NETWORK_ERROR, ["NETWORK_ERROR: " ++ msg]⟩, [q]))
      ∧ (∀ msgs dat, execute_query (δ := δ) home (some creds) q
          (.ok (some msgs) dat) =
          (.error ⟨1, .GRAPHQL_ERROR, ["GRAPHQL_ERROR: " ++ joinSemi msgs]⟩,
           [q]))
      ∧ (∀ outcome : HttpOutcome δ,
          (execute_query (δ := δ) home (some creds) q outcome).2 = [q]) := by
  intro δ home creds q
  refine ⟨fun reason => rfl, fun reason => rfl, ?_, fun msg => rfl,
    fun msgs dat => rfl, ?_⟩
  · intro code reason h1 h2
    simp [execute_query, load_credentials, h1, h2]
  · intro outcome
    cases outcome with
    | ok errors dat => cases errors <;> rfl
    | httpError code reason =>
      simp only [execute_query, load_credentials]
      by_cases hc : code = 401
      · simp [hc]
      · by_cases hc2 : code = 429 <;> simp [hc, hc2]
    | urlError msg => rfl

/-- Witness for C3: the generic-HTTP-status branch at status 500. -/
theorem C3_witness :
    execute_query (δ := Unit) "/home/u" (some ⟨"lin_api_k", "team1", "EST2"⟩)
      "query Q" (.httpError 500 "Internal Server Error") =
      (.error ⟨1, .HTTP_ERROR,
        ["HTTP_ERROR: " ++ toString 500 ++ " " ++ "Internal Server Error"]⟩,
       ["query Q"]) :=
  (C3_error_classification Unit "/home/u" ⟨"lin_api_k", "team1", "EST2"⟩
    "query Q").2.2.1 500 "Internal Server Error" (by decide) (by decide)

/-- Claim C10: `update_issue` invoked with a valid issue identifier but no
attribute flag at all exits with code 1 and the `No updates specified`
error; its request trace contains no `issueUpdate` submission, so the
remote issue is never modified. -/
theorem C10_update_requires_fields :
    ∀ (identifier uuid : String) (parentResp : Option String)
      (states : List WState) (projects : List Project)
      (teamLabels : List TeamLabel) (users : List User) (submitOk : Bool),
      update_issue identifier none none none none none none none none none
          (some uuid) parentResp states projects teamLabels users submitOk =
        ([.fetchIssue identifier], .error ⟨1, "ERROR: No updates specified."⟩)
      ∧ ((update_issue identifier none none none none none none none none
            none (some uuid) parentResp states projects teamLabels users
            submitOk).1.filter isSubmitUpdate) = [] := by
  intro identifier uuid parentResp states projects teamLabels users submitOk
  exact ⟨rfl, rfl⟩

/-- Claim C6, counterexample: The claim says `validate_date` accepts exactly
the strings of shape `DDDD-DD-DD`; but the regex's `$` anchor also matches
just before a trailing newline, so `"2024-03-15\n"` — not of that shape —
is accepted. -/
theorem C6_counterexample_trailing_newline :
    validate_date "2024-03-15\x0a" = true ∧
      claimedDateShape "2024-03-15\x0a" = false := by
  decide

/-- Claim C6, amended: `validate_date` accepts a string iff it is four
digits, dash, two digits, dash, two digits, optionally followed by one
trailing newline (the regex `$` anchor also matches before a final
newline). -/
theorem C6_date_validation_amended (s : String) :
    validate_date s = true ↔
      claimedDateShape s = true ∨ claimedDateShapeNl s = true := by
  obtain ⟨l⟩ := s
  rcases l with _ | ⟨c1, _ | ⟨c2, _ | ⟨c3, _ | ⟨c4, _ | ⟨d1, _ | ⟨c5, _ |
    ⟨c6, _ | ⟨d2, _ | ⟨c7, _ | ⟨c8, rest⟩⟩⟩⟩⟩⟩⟩⟩⟩⟩ <;>
    try (simp [validate_date, claimedDateShape, claimedDateShapeNl]; done)
  rcases rest with _ | ⟨x, _ | ⟨y, _ | ⟨z, t⟩⟩⟩ <;>
    simp [validate_date, claimedDateShape, claimedDateShapeNl, dollarAnchor,
      and_assoc]

/-- Claim C1: with current label-ID set `C` and requested names resolving
to ID set `N`, `add-labels` first fetches the issue's current labels and
then submits exactly the deduplicated union `C ∪ N` as the full new label
list, while `remove-labels` fetches and then submits exactly `C \ N`. -/
theorem C1_add_remove_labels_sets
    (identifier : String) (label_names : List String)
    (issue : IssueWithLabels) (teamLabels : List TeamLabel)
    (submitOk : Bool) (new_ids : List String)
    (hres : get_label_ids label_names teamLabels = .ok new_ids) :
    (add_labels_to_issue identifier label_names (some issue) teamLabels
        submitOk).1 =
      [.fetchIssueWithLabels identifier, .fetchLabels,
       .submitLabelUpdate issue.id
         (pySetList (issue.labels.map LabelRef.id ++ new_ids))]
    ∧ (pySetList (issue.labels.map LabelRef.id ++ new_ids)).toFinset =
        (issue.labels.map LabelRef.id).toFinset ∪ new_ids.toFinset
    ∧ (pySetList (issue.labels.map LabelRef.id ++ new_ids)).Nodup
    ∧ (remove_labels_from_issue identifier label_names (some issue) teamLabels
        submitOk).1 =
      [.fetchIssueWithLabels identifier, .fetchLabels,
       .submitLabelUpdate issue.id
         ((issue.labels.map LabelRef.id).filter
           (fun lid => !(new_ids.contains lid)))]
    ∧ ((issue.labels.map LabelRef.id).filter
          (fun lid => !(new_ids.contains lid))).toFinset =
        (issue.labels.map LabelRef.id).toFinset \ new_ids.toFinset := by
  refine ⟨?_, ?_, ?_, ?_, ?_⟩
  · simp [add_labels_to_issue, get_issue_with_labels, hres]
  · ext a
    simp [pySetList, List.mem_dedup]
  · exact List.nodup_dedup _
  · simp [remove_labels_from_issue, get_issue_with_labels, hres]
  · ext a
    simp [List.mem_filter]

/-- Witness for C1: an issue currently labeled `urgent` with the requested
list `["Bug", "urgent"]`. -/
theorem C1_witness_bug_urgent :
    (add_labels_to_issue "EST2-42" ["Bug", "urgent"]
        (some ⟨"uuid-42", "EST2-42", [⟨"lbl-urgent", "urgent"⟩]⟩)
        [⟨"lbl-bug", "Bug", "#red"⟩, ⟨"lbl-urgent", "urgent", "#blue"⟩]
        true).1 =
      [.fetchIssueWithLabels "EST2-42", .fetchLabels,
       .submitLabelUpdate
         (IssueWithLabels.mk "uuid-42" "EST2-42" [⟨"lbl-urgent", "urgent"⟩]).id
         (pySetList
           ((IssueWithLabels.mk "uuid-42" "EST2-42"
              [⟨"lbl-urgent", "urgent"⟩]).labels.map LabelRef.id ++
            ["lbl-bug", "lbl-urgent"]))]
    ∧ (pySetList
        ((IssueWithLabels.mk "uuid-42" "EST2-42"
           [⟨"lbl-urgent", "urgent"⟩]).labels.map LabelRef.id ++
         ["lbl-bug", "lbl-urgent"])).toFinset =
        ((IssueWithLabels.mk "uuid-42" "EST2-42"
           [⟨"lbl-urgent", "urgent"⟩]).labels.map LabelRef.id).toFinset ∪
        (["lbl-bug", "lbl-urgent"] : List String).toFinset
    ∧ (pySetList
        ((IssueWithLabels.mk "uuid-42" "EST2-42"
           [⟨"lbl-urgent", "urgent"⟩]).labels.map LabelRef.id ++
         ["lbl-bug", "lbl-urgent"])).Nodup
    ∧ (remove_labels_from_issue "EST2-42" ["Bug", "urgent"]
        (some ⟨"uuid-42", "EST2-42", [⟨"lbl-urgent", "urgent"⟩]⟩)
        [⟨"lbl-bug", "Bug", "#red"⟩, ⟨"lbl-urgent", "urgent", "#blue"⟩]
        true).1 =
      [.fetchIssueWithLabels "EST2-42", .fetchLabels,
       .submitLabelUpdate
         (IssueWithLabels.mk "uuid-42" "EST2-42" [⟨"lbl-urgent", "urgent"⟩]).id
         (((IssueWithLabels.mk "uuid-42" "EST2-42"
             [⟨"lbl-urgent", "urgent"⟩]).labels.map LabelRef.id).filter
           (fun lid => !((["lbl-bug", "lbl-urgent"] :
             List String).contains lid)))]
    ∧ (((IssueWithLabels.mk "uuid-42" "EST2-42"
          [⟨"lbl-urgent", "urgent"⟩]).labels.map LabelRef.id).filter
        (fun lid => !((["lbl-bug", "lbl-urgent"] :
          List String).contains lid))).toFinset =
        ((IssueWithLabels.mk "uuid-42" "EST2-42"
           [⟨"lbl-urgent", "urgent"⟩]).labels.map LabelRef.id).toFinset \
        (["lbl-bug", "lbl-urgent"] : List String).toFinset :=
  C1_add_remove_labels_sets "EST2-42" ["Bug", "urgent"]
    ⟨"uuid-42", "EST2-42", [⟨"lbl-urgent", "urgent"⟩]⟩
    [⟨"lbl-bug", "Bug", "#red"⟩, ⟨"lbl-urgent", "urgent", "#blue"⟩]
    true ["lbl-bug", "lbl-urgent"] rfl


/-- A string with a non-empty left part is not empty. -/
theorem append_ne_empty_of_left (a b : String) (ha : a.data ≠ []) :
    a ++ b ≠ "" := by
  intro h
  have hd : (a ++ b).data = [] := by rw [h]
  rw [String.data_append] at hd
  exact ha (List.append_eq_nil.mp hd).1

/-- No status filter clause is the empty string. -/
theorem status_filter_ne_empty (o : Option String) :
    ∀ f ∈ status_filter o, f ≠ "" := by
  intro f hf
  cases o with
  | none => cases hf
  | some x =>
    simp only [status_filter, List.mem_singleton] at hf
    rw [hf]
    exact append_ne_empty_of_left _ _ (by decide)

/-- No project filter clause is the empty string. -/
theorem project_filter_ne_empty (o : Option String) :
    ∀ f ∈ project_filter o, f ≠ "" := by
  intro f hf
  cases o with
  | none => cases hf
  | some x =>
    simp only [project_filter, List.mem_singleton] at hf
    rw [hf]
    exact append_ne_empty_of_left _ _ (by decide)

/-- No priority filter clause is the empty string. -/
theorem priority_filter_ne_empty (o : Option String) :
    ∀ f ∈ priority_filter o, f ≠ "" := by
  intro f hf
  cases o with
  | none => cases hf
  | some x =>
    simp only [priority_filter, List.mem_singleton] at hf
    rw [hf]
    exact append_ne_empty_of_left _ _ (by decide)

/-- No label filter clause is the empty string. -/
theorem label_filter_ne_empty (o : Option String) :
    ∀ f ∈ label_filter o, f ≠ "" := by
  intro f hf
  cases o with
  | none => cases hf
  | some x =>
    simp only [label_filter, List.mem_singleton] at hf
    rw [hf]
    exact append_ne_empty_of_left _ _ (by decide)

/-- No assignee filter clause is the empty string. -/
theorem assignee_filter_ne_empty (o : Option String) :
    ∀ f ∈ assignee_filter o, f ≠ "" := by
  intro f hf
  cases o with
  | none => cases hf
  | some x =>
    simp only [assignee_filter, List.mem_singleton] at hf
    rw [hf]
    exact append_ne_empty_of_left _ _ (by decide)

/-- No clause of the `filters` list is the empty string. -/
theorem list_filters_ne_empty
    (status project priority label assignee : Option String) :
    ∀ f ∈ list_filters status project priority label assignee, f ≠ "" := by
  intro f hf
  simp only [list_filters, List.mem_append] at hf
  rcases hf with ((((hf | hf) | hf) | hf) | hf)
  · exact status_filter_ne_empty status f hf
  · exact project_filter_ne_empty project f hf
  · exact priority_filter_ne_empty priority f hf
  · exact label_filter_ne_empty label f hf
  · exact assignee_filter_ne_empty assignee f hf

/-- Joining a non-empty list of non-empty strings is non-empty. -/
theorem joinComma_ne_empty (xs : List String) (hne : xs ≠ [])
    (hall : ∀ f ∈ xs, f ≠ "") : joinComma xs ≠ "" := by
  cases xs with
  | nil => cases hne rfl
  | cons x rest =>
    cases rest with
    | nil => exact hall x (by simp)
    | cons r rs =>
      intro h
      have hl := congrArg String.length h
      rw [show joinComma (x :: r :: rs) =
        x ++ ", " ++ joinComma (r :: rs) from rfl] at hl
      rw [String.length_append, String.length_append] at hl
      rw [show (", " : String).length = 2 from rfl] at hl
      rw [show ("" : String).length = 0 from rfl] at hl
      omega

/-- With at least one (non-empty) clause, the filter argument is a single
`filter` object wrapping the comma-joined clauses. -/
theorem filter_clause_of_ne_nil (filters : List String) (hne : filters ≠ [])
    (hall : ∀ f ∈ filters, f ≠ "") :
    filter_clause filters =
      ", filter: \x7b " ++ joinComma filters ++ " \x7d" := by
  unfold filter_clause
  rw [if_neg (joinComma_ne_empty filters hne hall)]

/-- Claim C8: the list query carries the given row limit as the `first:`
page-size bound; exactly one filter clause is emitted per provided option
(status, project, priority, label, assignee), each clause appears inside
the single `filter` object of the query (so the server combines them with
logical AND); and with no option provided no filter clause is emitted. -/
theorem C8_list_query_filters
    (team_id : String) (limit : Int)
    (status project priority label assignee : Option String) :
    SubstrOf
      ("issues(first: " ++ toString limit ++ ", orderBy: updatedAt").data
      (list_issues_query team_id limit status project priority label
        assignee).data
    ∧ (list_filters status project priority label assignee).length =
        (if status.isSome then 1 else 0) + (if project.isSome then 1 else 0) +
        (if priority.isSome then 1 else 0) + (if label.isSome then 1 else 0) +
        (if assignee.isSome then 1 else 0)
    ∧ filter_clause (list_filters none none none none none) = ""
    ∧ list_issues_query team_id limit none none none none none =
        ("\x7b team(id: " ++ quoteStr team_id ++ ") \x7b ") ++
        ("issues(first: " ++ toString limit ++ ", orderBy: updatedAt") ++
        list_query_tail
    ∧ (list_filters status project priority label assignee ≠ [] →
        filter_clause (list_filters status project priority label assignee) =
          ", filter: \x7b " ++
          joinComma (list_filters status project priority label assignee) ++
          " \x7d")
    ∧ (∀ f ∈ list_filters status project priority label assignee,
        SubstrOf f.data
          (list_issues_query team_id limit status project priority label
            assignee).data)
    ∧ (∀ x, status = some x →
        ("state: \x7b name: \x7b containsIgnoreCase: " ++
          (quoteStr (escape_graphql x) ++ " \x7d \x7d")) ∈
          list_filters status project priority label assignee)
    ∧ (∀ x, project = some x →
        ("project: \x7b name: \x7b containsIgnoreCase: " ++
          (quoteStr (escape_graphql x) ++ " \x7d \x7d")) ∈
          list_filters status project priority label assignee)
    ∧ (∀ x, priority = some x →
        ("priority: \x7b eq: " ++
          (toString (priorityMapGet (pyLower x) 0) ++ " \x7d")) ∈
          list_filters status project priority label assignee)
    ∧ (∀ x, label = some x →
        ("labels: \x7b name: \x7b containsIgnoreCase: " ++
          (quoteStr (escape_graphql x) ++ " \x7d \x7d")) ∈
          list_filters status project priority label assignee)
    ∧ (∀ x, assignee = some x →
        ("assignee: \x7b name: \x7b containsIgnoreCase: " ++
          (quoteStr (escape_graphql x) ++ " \x7d \x7d")) ∈
          list_filters status project priority label assignee) := by
  refine ⟨?_, ?_, rfl, ?_, ?_, ?_, ?_, ?_, ?_, ?_, ?_⟩
  · refine ⟨("\x7b team(id: " ++ quoteStr team_id ++ ") \x7b ").data,
      (filter_clause (list_filters status project priority label
        assignee)).data ++ list_query_tail.data, ?_⟩
    simp [list_issues_query, String.data_append, List.append_assoc]
  · cases status <;> cases project <;> cases priority <;> cases label <;>
      cases assignee <;> rfl
  · simp [list_issues_query, list_filters, status_filter, project_filter,
      priority_filter, label_filter, assignee_filter, filter_clause,
      joinComma]
  · exact fun hne => filter_clause_of_ne_nil _ hne
      (list_filters_ne_empty status project priority label assignee)
  · intro f hf
    have hne : list_filters status project priority label assignee ≠ [] := by
      intro h0
      rw [h0] at hf
      cases hf
    have hclause := filter_clause_of_ne_nil _ hne
      (list_filters_ne_empty status project priority label assignee)
    obtain ⟨u, v, huv⟩ := joinComma_substr f _ hf
    refine ⟨("\x7b team(id: " ++ quoteStr team_id ++ ") \x7b ").data ++
        ("issues(first: " ++ toString limit ++ ", orderBy: updatedAt").data ++
        (", filter: \x7b ").data ++ u,
      v ++ (" \x7d").data ++ list_query_tail.data, ?_⟩
    simp [list_issues_query, hclause, String.data_append, huv,
      List.append_assoc]
  · intro x hx
    subst hx
    simp [list_filters, status_filter]
  · intro x hx
    subst hx
    simp [list_filters, project_filter]
  · intro x hx
    subst hx
    simp [list_filters, priority_filter]
  · intro x hx
    subst hx
    simp [list_filters, label_filter]
  · intro x hx
    subst hx
    simp [list_filters, assignee_filter]

/-- Witness for C8: a list query with a status and a label filter. -/
theorem C8_witness :
    filter_clause (list_filters (some "Todo") none none (some "Bug") none) =
      ", filter: \x7b " ++
      joinComma (list_filters (some "Todo") none none (some "Bug") none) ++
      " \x7d"
    ∧ ("state: \x7b name: \x7b containsIgnoreCase: " ++
        (quoteStr (escape_graphql "Todo") ++ " \x7d \x7d")) ∈
        list_filters (some "Todo") none none (some "Bug") none
    ∧ ("labels: \x7b name: \x7b containsIgnoreCase: " ++
        (quoteStr (escape_graphql "Bug") ++ " \x7d \x7d")) ∈
        list_filters (some "Todo") none none (some "Bug") none
    ∧ SubstrOf ("state: \x7b name: \x7b containsIgnoreCase: " ++
        (quoteStr (escape_graphql "Todo") ++ " \x7d \x7d")).data
        (list_issues_query "team-1" 25 (some "Todo") none none (some "Bug")
          none).data :=
  ⟨(C8_list_query_filters "team-1" 25 (some "Todo") none none (some "Bug")
      none).2.2.2.2.1 (by decide),
   (C8_list_query_filters "team-1" 25 (some "Todo") none none (some "Bug")
      none).2.2.2.2.2.2.1 "Todo" rfl,
   (C8_list_query_filters "team-1" 25 (some "Todo") none none (some "Bug")
      none).2.2.2.2.2.2.2.2.2.1 "Bug" rfl,
   (C8_list_query_filters "team-1" 25 (some "Todo") none none (some "Bug")
      none).2.2.2.2.2.1 _ (by decide)⟩


/-- Status resolution succeeds exactly on the first case-insensitive
substring match, in fetch order. -/
theorem get_state_id_ok_iff (needle : String) (states : List WState)
    (sid : String) :
    get_state_id needle states = .ok sid ↔
      FirstMatch (statusMatches needle) WState.id states sid := by
  rw [← scanFirst_eq_some]
  unfold get_state_id
  split
  next x heq => rw [heq]; simp
  next heq => rw [heq]; simp

/-- A status miss exits 1 and reports every available state name. -/
theorem get_state_id_miss (needle : String) (states : List WState)
    (h : ∀ s ∈ states, statusMatches needle s = false) :
    ∃ e, get_state_id needle states = .error e ∧ e.exitCode = 1 ∧
      ∀ s ∈ states, SubstrOf s.name.data e.message.data := by
  refine ⟨⟨1, "ERROR: Status \x27" ++ needle ++
    "\x27 not found. Available: " ++
    joinComma (states.map WState.name)⟩, ?_, rfl, ?_⟩
  · unfold get_state_id
    rw [scanFirst_eq_none _ _ _ h]
  · intro s hs
    have hj := joinComma_substr s.name (states.map WState.name)
      (List.mem_map_of_mem _ hs)
    have h2 := hj.append_left ("ERROR: Status \x27" ++ needle ++
      "\x27 not found. Available: ").data
    simpa [String.data_append, List.append_assoc] using h2

/-- Label resolution succeeds exactly when every requested name resolves,
each to its first case-insensitive substring match. -/
theorem get_label_ids_ok_iff (label_names : List String)
    (labels : List TeamLabel) (ids : List String) :
    get_label_ids label_names labels = .ok ids ↔
      List.Forall₂
        (fun n lid => FirstMatch (labelMatches n) TeamLabel.id labels lid)
        label_names ids := by
  induction label_names generalizing ids with
  | nil =>
    cases ids with
    | nil => simp [get_label_ids]
    | cons i it => simp [get_label_ids]
  | cons n rest ih =>
    unfold get_label_ids
    cases hscan : scanFirst (labelMatches n) TeamLabel.id labels with
    | none =>
      simp only
      constructor
      · intro hcontra
        cases hcontra
      · intro hf
        cases hf with
        | cons hhead htail =>
          rw [(scanFirst_eq_some _ _ _ _).mpr hhead] at hscan
          cases hscan
    | some lid =>
      simp only
      cases hrec : get_label_ids rest labels with
      | ok ids2 =>
        have htail := (ih ids2).mp hrec
        constructor
        · intro hok
          obtain rfl : ids = lid :: ids2 := by
            cases hok
            rfl
          exact List.Forall₂.cons
            ((scanFirst_eq_some _ _ _ _).mp hscan) htail
        · intro hf
          cases hf with
          | cons hhead htl =>
            have hb := (scanFirst_eq_some _ _ _ _).mpr hhead
            rw [hscan] at hb
            obtain rfl := Option.some.inj hb
            have := (ih _).mpr htl
            rw [hrec] at this
            obtain rfl := Except.ok.inj this
            rfl
      | error e =>
        constructor
        · intro hcontra
          cases hcontra
        · intro hf
          cases hf with
          | cons hhead htl =>
            have := (ih _).mpr htl
            rw [hrec] at this
            cases this

/-- A label miss exits 1 and reports every available label name. -/
theorem get_label_ids_miss (label_names : List String)
    (labels : List TeamLabel)
    (h : ∃ n ∈ label_names, ∀ lb ∈ labels, labelMatches n lb = false) :
    ∃ e, get_label_ids label_names labels = .error e ∧ e.exitCode = 1 ∧
      ∀ lb ∈ labels, SubstrOf lb.name.data e.message.data := by
  induction label_names with
  | nil =>
    obtain ⟨n, hn, -⟩ := h
    cases hn
  | cons n rest ih =>
    cases hscan : scanFirst (labelMatches n) TeamLabel.id labels with
    | none =>
      refine ⟨⟨1, "ERROR: Label \x27" ++ n ++
        "\x27 not found. Available: " ++
        joinComma (labels.map TeamLabel.name)⟩, ?_, rfl, ?_⟩
      · unfold get_label_ids
        rw [hscan]
      · intro lb hlb
        have hj := joinComma_substr lb.name (labels.map TeamLabel.name)
          (List.mem_map_of_mem _ hlb)
        have h2 := hj.append_left ("ERROR: Label \x27" ++ n ++
          "\x27 not found. Available: ").data
        simpa [String.data_append, List.append_assoc] using h2
    | some lid =>
      have hrest : ∃ m ∈ rest, ∀ lb ∈ labels, labelMatches m lb = false := by
        obtain ⟨m, hm, hmiss⟩ := h
        rcases List.mem_cons.mp hm with rfl | hm2
        · rw [scanFirst_eq_none _ _ _ hmiss] at hscan
          cases hscan
        · exact ⟨m, hm2, hmiss⟩
      obtain ⟨e, herr, hcode, hsub⟩ := ih hrest
      refine ⟨e, ?_, hcode, hsub⟩
      unfold get_label_ids
      rw [hscan, herr]

/-- Project resolution succeeds exactly on the first case-insensitive
substring match, in fetch order. -/
theorem get_project_id_ok_iff (needle : String) (projects : List Project)
    (pid : String) :
    get_project_id needle projects = .ok pid ↔
      FirstMatch (projectMatches needle) Project.id projects pid := by
  rw [← scanFirst_eq_some]
  unfold get_project_id
  split
  next x heq => rw [heq]; simp
  next heq => rw [heq]; simp

/-- A project miss exits 1 and reports every available project name. -/
theorem get_project_id_miss (needle : String) (projects : List Project)
    (h : ∀ p ∈ projects, projectMatches needle p = false) :
    ∃ e, get_project_id needle projects = .error e ∧ e.exitCode = 1 ∧
      ∀ p ∈ projects, SubstrOf p.name.data e.message.data := by
  refine ⟨⟨1, "ERROR: Project \x27" ++ needle ++
    "\x27 not found. Available: " ++
    joinComma (projects.map Project.name)⟩, ?_, rfl, ?_⟩
  · unfold get_project_id
    rw [scanFirst_eq_none _ _ _ h]
  · intro p hp
    have hj := joinComma_substr p.name (projects.map Project.name)
      (List.mem_map_of_mem _ hp)
    have h2 := hj.append_left ("ERROR: Project \x27" ++ needle ++
      "\x27 not found. Available: ").data
    simpa [String.data_append, List.append_assoc] using h2

/-- User resolution succeeds exactly on the first active user whose name
or email contains the needle (case-insensitively), in fetch order. -/
theorem get_user_id_ok_iff (needle : String) (users : List User)
    (uid : String) :
    get_user_id needle users = .ok uid ↔
      FirstMatch (userMatches needle) User.id users uid := by
  rw [← scanFirst_eq_some]
  unfold get_user_id
  split
  next x heq => rw [heq]; simp
  next heq => rw [heq]; simp

/-- A user miss exits 1 and reports every active user name. -/
theorem get_user_id_miss (needle : String) (users : List User)
    (h : ∀ u ∈ users, userMatches needle u = false) :
    ∃ e, get_user_id needle users = .error e ∧ e.exitCode = 1 ∧
      ∀ u ∈ users, u.active = true → SubstrOf u.name.data e.message.data := by
  refine ⟨⟨1, "ERROR: User \x27" ++ needle ++
    "\x27 not found. Available: " ++
    joinComma ((users.filter User.active).map User.name)⟩, ?_, rfl, ?_⟩
  · unfold get_user_id
    rw [scanFirst_eq_none _ _ _ h]
  · intro u hu hact
    have hmem : u ∈ users.filter User.active :=
      List.mem_filter.mpr ⟨hu, hact⟩
    have hj := joinComma_substr u.name
      ((users.filter User.active).map User.name)
      (List.mem_map_of_mem _ hmem)
    have h2 := hj.append_left ("ERROR: User \x27" ++ needle ++
      "\x27 not found. Available: ").data
    simpa [String.data_append, List.append_assoc] using h2

/-- Claim C2, amended: for status, project, label(s) and user, resolution
performs a case-insensitive substring match against the candidates fetched
from the service (for users: the active users, matched on name or email);
the first match in fetch order wins; and on a miss the operation reports
all available candidate names and exits 1.  Issue-by-key resolution,
however, is a direct server lookup of the exact identifier: the server's
answer is returned as is, and a miss reports only the identifier (with
exit 1), without any candidate list. -/
theorem C2_name_resolution_amended :
    (∀ (needle : String) (states : List WState) (sid : String),
        get_state_id needle states = .ok sid ↔
          FirstMatch (statusMatches needle) WState.id states sid)
    ∧ (∀ (needle : String) (states : List WState),
        (∀ s ∈ states, statusMatches needle s = false) →
        ∃ e, get_state_id needle states = .error e ∧ e.exitCode = 1 ∧
          ∀ s ∈ states, SubstrOf s.name.data e.message.data)
    ∧ (∀ (needle : String) (projects : List Project) (pid : String),
        get_project_id needle projects = .ok pid ↔
          FirstMatch (projectMatches needle) Project.id projects pid)
    ∧ (∀ (needle : String) (projects : List Project),
        (∀ p ∈ projects, projectMatches needle p = false) →
        ∃ e, get_project_id needle projects = .error e ∧ e.exitCode = 1 ∧
          ∀ p ∈ projects, SubstrOf p.name.data e.message.data)
    ∧ (∀ (label_names : List String) (labels : List TeamLabel)
        (ids : List String),
        get_label_ids label_names labels = .ok ids ↔
          List.Forall₂
            (fun n lid => FirstMatch (labelMatches n) TeamLabel.id labels lid)
            label_names ids)
    ∧ (∀ (label_names : List String) (labels : List TeamLabel),
        (∃ n ∈ label_names, ∀ lb ∈ labels, labelMatches n lb = false) →
        ∃ e, get_label_ids label_names labels = .error e ∧ e.exitCode = 1 ∧
          ∀ lb ∈ labels, SubstrOf lb.name.data e.message.data)
    ∧ (∀ (needle : String) (users : List User) (uid : String),
        get_user_id needle users = .ok uid ↔
          FirstMatch (userMatches needle) User.id users uid)
    ∧ (∀ (needle : String) (users : List User),
        (∀ u ∈ users, userMatches needle u = false) →
        ∃ e, get_user_id needle users = .error e ∧ e.exitCode = 1 ∧
          ∀ u ∈ users, u.active = true →
            SubstrOf u.name.data e.message.data)
    ∧ (∀ identifier uuid : String,
        get_issue_id identifier (some uuid) = .ok uuid)
    ∧ (∀ identifier : String,
        get_issue_id identifier none =
          .error ⟨1, "ERROR: Issue \x27" ++ identifier ++
            "\x27 not found"⟩) :=
  ⟨get_state_id_ok_iff, get_state_id_miss, get_project_id_ok_iff,
    get_project_id_miss, get_label_ids_ok_iff, get_label_ids_miss,
    get_user_id_ok_iff, get_user_id_miss, fun _ _ => rfl, fun _ => rfl⟩

/-- Claim C2, counterexample: an issue-by-key miss prints only
`ERROR: Issue '...' not found` — no candidate names and no `Available`
list, contrary to the claim's assertion that every lookup kind reports the
available candidates on a miss. -/
theorem C2_counterexample_issue_by_key :
    get_issue_id "EST2-99" none =
      .error ⟨1, "ERROR: Issue \x27EST2-99\x27 not found"⟩
    ∧ isSub ("EST2-1").data
        ("ERROR: Issue \x27EST2-99\x27 not found").data = false
    ∧ isSub ("Available").data
        ("ERROR: Issue \x27EST2-99\x27 not found").data = false := by
  refine ⟨rfl, by decide, by decide⟩

/-- Witness for C2 at concrete miss and hit inputs. -/
theorem C2_witness :
    (∃ e, get_state_id "zzz"
        [⟨"s1", "Todo", "unstarted"⟩, ⟨"s2", "Done", "completed"⟩] =
        .error e ∧ e.exitCode = 1 ∧
        ∀ s ∈ ([⟨"s1", "Todo", "unstarted"⟩,
          ⟨"s2", "Done", "completed"⟩] : List WState),
          SubstrOf s.name.data e.message.data)
    ∧ (∃ e, get_label_ids ["nope"] [⟨"lb", "Bug", "#c"⟩] = .error e ∧
        e.exitCode = 1 ∧
        ∀ lb ∈ ([⟨"lb", "Bug", "#c"⟩] : List TeamLabel),
          SubstrOf lb.name.data e.message.data)
    ∧ (∃ e, get_user_id "nobody" [⟨"u1", "Ann", "ann@mail.test", true⟩] =
        .error e ∧ e.exitCode = 1 ∧
        ∀ u ∈ ([⟨"u1", "Ann", "ann@mail.test", true⟩] : List User),
          u.active = true → SubstrOf u.name.data e.message.data)
    ∧ get_issue_id "EST2-42" (some "uuid-42") = .ok "uuid-42" :=
  ⟨C2_name_resolution_amended.2.1 "zzz" [⟨"s1", "Todo", "unstarted"⟩, ⟨"s2", "Done", "completed"⟩]
      (by decide),
    C2_name_resolution_amended.2.2.2.2.2.1 ["nope"] [⟨"lb", "Bug", "#c"⟩] (by decide),
    C2_name_resolution_amended.2.2.2.2.2.2.2.1 "nobody" [⟨"u1", "Ann", "ann@mail.test", true⟩]
      (by decide),
    C2_name_resolution_amended.2.2.2.2.2.2.2.2.1 "EST2-42" "uuid-42"⟩

end EstateMate
